import Mathlib

/-!
Shallow embedding of the sendgrid-mcp server (src/main.ts) and proofs about its
specification claims.

The program is a Model Context Protocol server exposing one tool, send_email.
Per incoming call it runs: zod validation (EmailSchema.parse), HTML
sanitization of the optional html body, construction of the SendGrid message
(with the configured sender address), the outbound send, and mapping of every
outcome to a tool response.

Modelling decisions:
* JavaScript values reaching the handler are modelled by `JsValue`
  (strings, numbers, booleans, null, undefined, arrays, objects).
* zod 3.23.8 semantics for `EmailSchema` (a `z.object` with `.refine`) are
  embedded in `EmailSchema.parse`: per-field issues are collected in
  declaration order; a missing or non-string field aborts the object parse
  (so the refinement is skipped), while a failed string check (email format,
  min length) only marks it dirty (so the refinement still runs and its issue
  is appended); unknown keys are stripped, since the schema does not use
  `.strict()`.
* The zod email format check (`emailOk`) implements the zod 3.23.8 email
  regular expression semantics.
* The outbound SendGrid call is an external system; it is a parameter
  `send : SgMessage → Except ThrownError SgResponse` of the handler, so the
  theorems quantify over every provider behaviour.
-/

inductive JsValue where
  | str (s : String)
  | num (n : Int)
  | boolean (b : Bool)
  | jsNull
  | undef
  | arr (elems : List JsValue)
  | obj (fields : List (String × JsValue))

/-- Name of a value's parsed type, as zod reports it in invalid_type issues. -/
def jsTypeName : JsValue → String
  | .str _ => "string"
  | .num _ => "number"
  | .boolean _ => "boolean"
  | .jsNull => "null"
  | .undef => "undefined"
  | .arr _ => "array"
  | .obj _ => "object"

/-- Property lookup on a JavaScript object, modelled as association-list lookup. -/
def lookupField (fields : List (String × JsValue)) (key : String) : Option JsValue :=
  match fields with
  | [] => none
  | (k, v) :: rest => if k = key then some v else lookupField rest key

/- Email-format check: the zod 3.23.8 email regular expression, applied
case-insensitively, written out as executable checks over the character list. -/

def isAsciiLetter (c : Char) : Bool :=
  (65 ≤ c.toNat && c.toNat ≤ 90) || (97 ≤ c.toNat && c.toNat ≤ 122)

def isAsciiDigit (c : Char) : Bool :=
  48 ≤ c.toNat && c.toNat ≤ 57

def isAlnum (c : Char) : Bool :=
  isAsciiLetter c || isAsciiDigit c

/-- Characters permitted anywhere in the local part: alphanumeric, underscore,
apostrophe, plus, hyphen, dot. -/
def localPartChar (c : Char) : Bool :=
  isAlnum c || c = '_' || c = Char.ofNat 39 || c = '+' || c = '-' || c = '.'

/-- Characters permitted as the final character of the local part. -/
def localPartEndChar (c : Char) : Bool :=
  isAlnum c || c = '_' || c = '+' || c = '-'

/-- Split a character list at every occurrence of the separator. -/
def splitOnChar (c : Char) : List Char → List (List Char)
  | [] => [[]]
  | x :: xs =>
    match splitOnChar c xs with
    | [] => [[]]
    | h :: t => if x = c then [] :: h :: t else (x :: h) :: t

/-- Check that no two consecutive characters are both dots. -/
def noDoubleDot : List Char → Bool
  | [] => true
  | [_] => true
  | a :: b :: rest => !(a = '.' && b = '.') && noDoubleDot (b :: rest)

/-- Domain label: nonempty, starts alphanumeric, then alphanumeric or hyphen. -/
def domainLabelOk (l : List Char) : Bool :=
  match l with
  | [] => false
  | c :: rest => isAlnum c && rest.all (fun d => isAlnum d || d = '-')

/-- Top-level domain: at least two characters, letters only. -/
def tldOk (l : List Char) : Bool :=
  l.length ≥ 2 && l.all isAsciiLetter

/-- Domain part: one or more labels, each followed by a dot, then the TLD. -/
def domainOk (dom : List Char) : Bool :=
  match (splitOnChar '.' dom).reverse with
  | [] => false
  | tld :: labels => tldOk tld && labels.length ≥ 1 && labels.all domainLabelOk

/-- Email-format validity per the zod 3.23.8 email check. -/
def emailOk (s : String) : Bool :=
  match splitOnChar '@' s.toList with
  | [localPart, domain] =>
    !localPart.isEmpty &&
    localPart.all localPartChar &&
    (match localPart.getLast? with
     | some c => localPartEndChar c
     | none => false) &&
    (match localPart with
     | c :: _ => !(c = '.')
     | [] => false) &&
    noDoubleDot s.toList &&
    domainOk domain
  | _ => false

/-- One zod issue: a field path and a human-readable message. -/
structure ZodIssue where
  path : List String
  message : String
deriving DecidableEq

/-- Validated request produced by EmailSchema (type EmailRequest in main.ts).
The field named to in the source is written «to» because it is a Lean keyword. -/
structure EmailRequest where
  «to» : String
  subject : String
  text : Option String
  html : Option String
deriving DecidableEq

deriving instance DecidableEq for Except

/-- Parse status of one zod sub-parse: valid, dirty (failed checks on a value of
the right type) or aborted (wrong type / missing required value). -/
inductive PStatus where
  | valid
  | dirty
  | aborted
deriving DecidableEq

/-- Result of parsing one field of the schema object. -/
structure FieldResult where
  status : PStatus
  issues : List ZodIssue
  value : Option String

/-- Parse the required `to` field: a string that must satisfy the email check. -/
def parseTo (fields : List (String × JsValue)) : FieldResult :=
  match lookupField fields "to" with
  | none => ⟨.aborted, [⟨["to"], "Required"⟩], none⟩
  | some .undef => ⟨.aborted, [⟨["to"], "Required"⟩], none⟩
  | some (.str s) =>
    if emailOk s then ⟨.valid, [], some s⟩
    else ⟨.dirty, [⟨["to"], "Invalid recipient email address"⟩], some s⟩
  | some v => ⟨.aborted, [⟨["to"], "Expected string, received " ++ jsTypeName v⟩], none⟩

/-- Parse the required `subject` field: a string of minimum length 1. -/
def parseSubject (fields : List (String × JsValue)) : FieldResult :=
  match lookupField fields "subject" with
  | none => ⟨.aborted, [⟨["subject"], "Required"⟩], none⟩
  | some .undef => ⟨.aborted, [⟨["subject"], "Required"⟩], none⟩
  | some (.str s) =>
    if s = "" then ⟨.dirty, [⟨["subject"], "Subject cannot be empty"⟩], some s⟩
    else ⟨.valid, [], some s⟩
  | some v => ⟨.aborted, [⟨["subject"], "Expected string, received " ++ jsTypeName v⟩], none⟩

/-- Parse an optional string field (`text` or `html`). -/
def parseOptionalString (fields : List (String × JsValue)) (key : String) : FieldResult :=
  match lookupField fields key with
  | none => ⟨.valid, [], none⟩
  | some .undef => ⟨.valid, [], none⟩
  | some (.str s) => ⟨.valid, [], some s⟩
  | some v => ⟨.aborted, [⟨[key], "Expected string, received " ++ jsTypeName v⟩], none⟩

/-- JavaScript truthiness of an optional string: present and nonempty. -/
def strTruthy : Option String → Bool
  | none => false
  | some s => if s = "" then false else true

/-- Parse of an object input against the schema: the zod object parse followed
by the content-presence refinement. Issues are collected in declaration order
to, subject, text, html; the refinement issue (path content) comes last and is
only produced when no field aborted the object parse. Unknown keys are
stripped silently. -/
def parseEmailObject (fields : List (String × JsValue)) :
    Except (List ZodIssue) EmailRequest :=
    let rto := parseTo fields
    let rsubject := parseSubject fields
    let rtext := parseOptionalString fields "text"
    let rhtml := parseOptionalString fields "html"
    let issues := rto.issues ++ rsubject.issues ++ rtext.issues ++ rhtml.issues
    if rto.status = .aborted ∨ rsubject.status = .aborted ∨
        rtext.status = .aborted ∨ rhtml.status = .aborted then
      .error issues
    else
      let data : EmailRequest :=
        ⟨rto.value.getD "", rsubject.value.getD "", rtext.value, rhtml.value⟩
      if strTruthy data.text || strTruthy data.html then
        match issues with
        | [] => .ok data
        | _ => .error issues
      else
        .error (issues ++ [⟨["content"], "Either text or html content must be provided"⟩])

/-- EmailSchema.parse: a top-level object is parsed against the schema; any
other top-level value is an invalid_type failure (Required for undefined). -/
def EmailSchema.parse (v : JsValue) : Except (List ZodIssue) EmailRequest :=
  match v with
  | .obj fields => parseEmailObject fields
  | .undef => .error [⟨[], "Required"⟩]
  | v => .error [⟨[], "Expected object, received " ++ jsTypeName v⟩]

/-- Process-wide configuration loaded at startup (apiKey, fromEmail). -/
structure Configuration where
  apiKey : String
  fromEmail : String

/-- Message handed to the provider's send operation (the msg object built in
sendEmail). The field named from in the source is written «from». -/
structure SgMessage where
  «to» : String
  «from» : String
  subject : String
  text : Option String
  html : Option String
deriving DecidableEq

/-- Provider success response: status code and response headers. -/
structure SgResponse where
  statusCode : Nat
  headers : List (String × String)

/-- Receipt returned by sendEmail on success. -/
structure DeliveryReceipt where
  statusCode : Nat
  messageId : String
deriving DecidableEq

/-- Values the provider call may throw: an error object carrying a response
property (with optional status and body), a plain Error with a message, or a
thrown value that is not an Error at all. -/
inductive ThrownError where
  | withResponse (status : Option Nat) (body : Option JsValue)
  | generic (message : String)
  | nonError

mutual

/-- JavaScript template-literal stringification of a value. -/
def jsToString : JsValue → String
  | .str s => s
  | .num n => toString n
  | .boolean b => if b then "true" else "false"
  | .jsNull => "null"
  | .undef => "undefined"
  | .arr es => String.intercalate "," (jsToStringList es)
  | .obj _ => "[object Object]"

/-- Array elements joined by commas; null and undefined elements print empty. -/
def jsToStringList : List JsValue → List String
  | [] => []
  | .jsNull :: rest => "" :: jsToStringList rest
  | .undef :: rest => "" :: jsToStringList rest
  | e :: rest => jsToString e :: jsToStringList rest

end

/-- Header lookup on the provider response. -/
def lookupHeader (headers : List (String × String)) (key : String) : Option String :=
  match headers with
  | [] => none
  | (k, v) :: rest => if k = key then some v else lookupHeader rest key

/-- Message identifier extraction: response.headers[x-message-id] || unknown.
A present-but-empty header value is falsy in JavaScript, so it also yields
the sentinel. -/
def messageIdOf (headers : List (String × String)) : String :=
  match lookupHeader headers "x-message-id" with
  | some s => if s = "" then "unknown" else s
  | none => "unknown"

/-- Construction of the provider message inside sendEmail: the sender is the
configured fromEmail, and text/html are attached only when truthy. -/
def buildMessage (fromEmail : String) (emailData : EmailRequest) : SgMessage :=
  { «to» := emailData.«to»
    «from» := fromEmail
    subject := emailData.subject
    text := if strTruthy emailData.text then emailData.text else none
    html := if strTruthy emailData.html then emailData.html else none }

/-- The sendEmail method: build the message, invoke the provider, and on
success produce the receipt. The second component records the message that was
handed to the provider's send operation. -/
def sendEmail (fromEmail : String) (send : SgMessage → Except ThrownError SgResponse)
    (emailData : EmailRequest) : Except ThrownError DeliveryReceipt × SgMessage :=
  match send (buildMessage fromEmail emailData) with
  | .ok resp =>
    (.ok ⟨resp.statusCode, messageIdOf resp.headers⟩, buildMessage fromEmail emailData)
  | .error e => (.error e, buildMessage fromEmail emailData)

/-- Status rendering in the SendGrid error branch:
response?.status || unknown (a zero status is falsy, hence also unknown). -/
def statusText (status : Option Nat) : String :=
  match status with
  | some s => if s = 0 then "unknown" else toString s
  | none => "unknown"

/-- Defensive extraction of the first provider error message: the body must be
an object whose errors property is a nonempty array whose first element is an
object with a message property. Any other shape (including a null first
element, whose property access would throw and be caught) yields none. -/
def extractFirstErrorMessage (body : Option JsValue) : Option String :=
  match body with
  | some (.obj fields) =>
    match lookupField fields "errors" with
    | some (.arr (first :: _)) =>
      match first with
      | .obj ef =>
        match lookupField ef "message" with
        | some m => some (jsToString m)
        | none => none
      | _ => none
    | _ => none
  | _ => none

/-- Error text produced in the SendGrid API error branch of the dispatcher. -/
def sendGridErrorText (status : Option Nat) (body : Option JsValue) : String :=
  "SendGrid API error (status: " ++ statusText status ++ ")" ++
    match extractFirstErrorMessage body with
    | some m => ": " ++ m
    | none => ""

/-- Error text produced in the zod validation error branch: field path joined
by dots, a colon, the message, all violations joined by commas. -/
def zodErrorText (issues : List ZodIssue) : String :=
  "Validation error: " ++
    String.intercalate ", "
      (issues.map (fun i => String.intercalate "." i.path ++ ": " ++ i.message))

/-- One item of a tool response's content array. -/
structure ContentItem where
  type : String
  text : String
deriving DecidableEq

/-- Tool response shape. A success response carries no isError property in the
source; that absence is modelled as isError = false. -/
structure ToolResponse where
  content : List ContentItem
  isError : Bool
deriving DecidableEq

/-- Response with a single text content item. -/
def textResponse (t : String) (err : Bool) : ToolResponse :=
  ⟨[⟨"text", t⟩], err⟩

/-- Construction of sanitizedData in handleSendEmail: the html body is passed
through the sanitizer when truthy and dropped otherwise; text is untouched. -/
def sanitizeRequest (sanitizeHtml : String → String) (emailData : EmailRequest) :
    EmailRequest :=
  { emailData with
    html := if strTruthy emailData.html then emailData.html.map sanitizeHtml else none }

/-- The handleSendEmail dispatcher: validate, sanitize html, send, and map
every outcome to a tool response. The sanitizer and the provider are
parameters, so the theorems quantify over their behaviour. The second
component lists the messages handed to the provider during the call. -/
def handleSendEmail (cfg : Configuration) (sanitizeHtml : String → String)
    (send : SgMessage → Except ThrownError SgResponse) (arguments : JsValue) :
    ToolResponse × List SgMessage :=
  match EmailSchema.parse arguments with
  | .error issues => (textResponse (zodErrorText issues) true, [])
  | .ok emailData =>
    match sendEmail cfg.fromEmail send (sanitizeRequest sanitizeHtml emailData) with
    | (.ok receipt, msg) =>
      (textResponse ("Email sent successfully! Status: " ++ toString receipt.statusCode ++
        ", Message ID: " ++ receipt.messageId) false, [msg])
    | (.error (.withResponse status body), msg) =>
      (textResponse (sendGridErrorText status body) true, [msg])
    | (.error (.generic m), msg) =>
      (textResponse ("Failed to send email: " ++ m) true, [msg])
    | (.error .nonError, msg) =>
      (textResponse "Failed to send email: Unknown error" true, [msg])

/-- The CallToolRequest handler set up in setupHandlers: look the tool name up
in the handler map (which holds exactly send_email) and throw an Unknown tool
error when the lookup fails. A thrown error is the Except.error case; a
returned tool response is the Except.ok case. -/
def callToolHandler (cfg : Configuration) (sanitizeHtml : String → String)
    (send : SgMessage → Except ThrownError SgResponse)
    (toolName : String) (arguments : JsValue) :
    Except String (ToolResponse × List SgMessage) :=
  if toolName = "send_email" then .ok (handleSendEmail cfg sanitizeHtml send arguments)
  else .error ("Unknown tool: " ++ toolName)

/-- Modelled from the spec: the sanitizeHtml method delegates entirely to the
third-party DOMPurify library, whose implementation is not part of this
repository (src/ contains only its caller and tests pinning concrete
behaviour). Following spec section 4.2, HTML content is modelled at the level
DOMPurify operates on, a parsed markup tree: text nodes and elements with a
tag, an attribute list and child nodes. -/
inductive Html where
  | text (s : String)
  | elem (tag : String) (attrs : List (String × String)) (children : List Html)

/-- Tags removed together with their contents: script, iframe, object, embed. -/
def dangerousTag (tag : String) : Bool :=
  tag = "script" || tag = "iframe" || tag = "object" || tag = "embed"

/-- String prefix test. -/
def strStartsWith (p s : String) : Bool :=
  List.isPrefixOf p.toList s.toList

/-- Attributes stripped from an element: inline event handlers (any attribute
whose name starts with on) and javascript:-scheme URLs in href or src. -/
def dangerousAttr (attrName attrValue : String) : Bool :=
  strStartsWith "on" attrName ||
    ((attrName = "href" || attrName = "src") && strStartsWith "javascript:" attrValue)

mutual

/-- Modelled from the spec: sanitization of one node. A dangerous element is
removed together with its contents; any other element keeps its tag, loses its
dangerous attributes and has its children sanitized; text is untouched. -/
def sanitizeNode : Html → List Html
  | .text s => [.text s]
  | .elem tag attrs children =>
    if dangerousTag tag then []
    else [.elem tag (attrs.filter (fun a => !dangerousAttr a.1 a.2)) (sanitize children)]

/-- Modelled from the spec: sanitization of a markup fragment (node list). -/
def sanitize : List Html → List Html
  | [] => []
  | h :: t => sanitizeNode h ++ sanitize t

end

mutual

/-- Cleanliness of one node: no dangerous tag, no dangerous attribute,
anywhere in the tree. -/
def nodeClean : Html → Bool
  | .text _ => true
  | .elem tag attrs children =>
    !dangerousTag tag && attrs.all (fun a => !dangerousAttr a.1 a.2) && fragClean children

/-- Cleanliness of a fragment. -/
def fragClean : List Html → Bool
  | [] => true
  | h :: t => nodeClean h && fragClean t

end

mutual

/-- Safe formatting markup per the spec example: only p, strong and em
elements without attributes, over plain text. -/
def nodeSafeFormatting : Html → Bool
  | .text _ => true
  | .elem tag attrs children =>
    (tag = "p" || tag = "strong" || tag = "em") && attrs.isEmpty &&
      fragSafeFormatting children

/-- Safe formatting markup for a fragment. -/
def fragSafeFormatting : List Html → Bool
  | [] => true
  | h :: t => nodeSafeFormatting h && fragSafeFormatting t

end

/-- Fixtures used by the closed theorems below. -/
def cfgA : Configuration := ⟨"SG.key", "sender@example.com"⟩

def inputA : JsValue :=
  .obj [("to", .str "test@example.com"), ("subject", .str "Hi"), ("text", .str "hello")]

def inputB : JsValue :=
  .obj [("to", .str "other@example.org"), ("subject", .str "Yo"), ("text", .str "bye")]

def sendOkA : SgMessage → Except ThrownError SgResponse :=
  fun _ => .ok ⟨202, [("x-message-id", "test-message-id-123")]⟩

def msgA : SgMessage :=
  ⟨"test@example.com", "sender@example.com", "Hi", some "hello", none⟩

def msgB : SgMessage :=
  ⟨"other@example.org", "sender@example.com", "Yo", some "bye", none⟩

def inputEmptySubject : JsValue :=
  .obj [("to", .str "test@example.com"), ("subject", .str ""), ("text", .str "hi")]

def inputWithUnknownField : JsValue :=
  .obj [("to", .str "test@example.com"), ("subject", .str "Hi"),
    ("text", .str "hello"), ("from", .str "attacker@evil.example")]

def sendStatusZero : SgMessage → Except ThrownError SgResponse :=
  fun _ => .error (.withResponse (some 0) none)

def bodyInvalidRecipient : JsValue :=
  .obj [("errors", .arr [.obj [("message", .str "Invalid recipient")]])]

def sendEmptyMessageId : SgMessage → Except ThrownError SgResponse :=
  fun _ => .ok ⟨202, [("x-message-id", "")]⟩

def safeHtmlFragment : List Html :=
  [.elem "p" [] [.elem "strong" [] [.text "Bold"], .text " and ",
    .elem "em" [] [.text "italic"], .text " text"]]

theorem all_filter_self {α : Type} (p : α → Bool) (l : List α) :
    (l.filter p).all p = true := by
  simp [List.all_eq_true, List.mem_filter]

theorem fragClean_append (a b : List Html) :
    fragClean (a ++ b) = (fragClean a && fragClean b) := by
  induction a with
  | nil => simp [fragClean]
  | cons h t ih => simp [fragClean, ih, Bool.and_assoc]

mutual

theorem sanitizeNode_clean : ∀ h : Html, fragClean (sanitizeNode h) = true
  | .text s => by simp [sanitizeNode, fragClean, nodeClean]
  | .elem tag attrs children => by
    by_cases hd : dangerousTag tag = true
    · simp [sanitizeNode, hd, fragClean]
    · simp only [Bool.not_eq_true] at hd
      simp [sanitizeNode, hd, fragClean, nodeClean, sanitize_clean children,
        all_filter_self]

theorem sanitize_clean : ∀ l : List Html, fragClean (sanitize l) = true
  | [] => rfl
  | h :: t => by
    simp [sanitize, fragClean_append, sanitizeNode_clean h, sanitize_clean t]

end

mutual

theorem sanitizeNode_of_clean : ∀ h : Html, nodeClean h = true → sanitizeNode h = [h]
  | .text s, _ => by simp [sanitizeNode]
  | .elem tag attrs children, hc => by
    simp only [nodeClean, Bool.and_eq_true, Bool.not_eq_true'] at hc
    obtain ⟨⟨h1, h2⟩, h3⟩ := hc
    have hfilter : attrs.filter (fun a => !dangerousAttr a.1 a.2) = attrs := by
      rw [List.filter_eq_self]
      simpa [List.all_eq_true] using h2
    simp [sanitizeNode, h1, hfilter, sanitize_of_clean children h3]

theorem sanitize_of_clean : ∀ l : List Html, fragClean l = true → sanitize l = l
  | [], _ => rfl
  | h :: t, hc => by
    simp only [fragClean, Bool.and_eq_true] at hc
    simp [sanitize, sanitizeNode_of_clean h hc.1, sanitize_of_clean t hc.2]

end

mutual

theorem nodeSafeFormatting_clean :
    ∀ h : Html, nodeSafeFormatting h = true → nodeClean h = true
  | .text s, _ => rfl
  | .elem tag attrs children, hs => by
    simp only [nodeSafeFormatting, Bool.and_eq_true, Bool.or_eq_true,
      decide_eq_true_eq] at hs
    obtain ⟨⟨htag, hattrs⟩, hch⟩ := hs
    have hattrs' : attrs = [] := by
      cases attrs with
      | nil => rfl
      | cons a as => simp [List.isEmpty] at hattrs
    subst hattrs'
    have hd : dangerousTag tag = false := by
      rcases htag with (h | h) | h <;> subst h <;> rfl
    simp [nodeClean, hd, fragSafeFormatting_clean children hch, List.all_nil]

theorem fragSafeFormatting_clean :
    ∀ l : List Html, fragSafeFormatting l = true → fragClean l = true
  | [], _ => rfl
  | h :: t, hs => by
    simp only [fragSafeFormatting, Bool.and_eq_true] at hs
    simp [fragClean, nodeSafeFormatting_clean h hs.1, fragSafeFormatting_clean t hs.2]

end

theorem sendEmail_snd (f : String) (send : SgMessage → Except ThrownError SgResponse)
    (d : EmailRequest) : (sendEmail f send d).2 = buildMessage f d := by
  unfold sendEmail
  cases send (buildMessage f d) <;> rfl

theorem mem_sent_from (cfg : Configuration) (san : String → String)
    (send : SgMessage → Except ThrownError SgResponse) (input : JsValue) (msg : SgMessage)
    (h : msg ∈ (handleSendEmail cfg san send input).2) : msg.«from» = cfg.fromEmail := by
  unfold handleSendEmail at h
  split at h
  · simp at h
  · rename_i d heqp
    split at h <;> rename_i msgP heq <;>
      simp only [List.mem_singleton] at h <;> subst h <;>
      have h2 := congrArg Prod.snd heq <;>
      rw [sendEmail_snd] at h2 <;> simp at h2 <;> subst h2 <;> rfl

/-- C1: every message handed to the provider's send operation uses the
configured fromEmail as its sender, and two runs under the same configuration
hand over messages with the same sender, whatever the caller inputs, the
sanitizer and the provider behaviour are. -/
theorem delivery_from_is_configured (cfg : Configuration)
    (san₁ san₂ : String → String)
    (send₁ send₂ : SgMessage → Except ThrownError SgResponse)
    (input₁ input₂ : JsValue) (m₁ m₂ : SgMessage)
    (h₁ : m₁ ∈ (handleSendEmail cfg san₁ send₁ input₁).2)
    (h₂ : m₂ ∈ (handleSendEmail cfg san₂ send₂ input₂).2) :
    m₁.«from» = cfg.fromEmail ∧ m₁.«from» = m₂.«from» := by
  have e₁ := mem_sent_from cfg san₁ send₁ input₁ m₁ h₁
  have e₂ := mem_sent_from cfg san₂ send₂ input₂ m₂ h₂
  exact ⟨e₁, e₁.trans e₂.symm⟩

/-- C1 witness: two concrete runs with different caller inputs. -/
theorem delivery_from_is_configured_witness :
    msgA.«from» = cfgA.fromEmail ∧ msgA.«from» = msgB.«from» :=
  delivery_from_is_configured cfgA id id sendOkA sendOkA inputA inputB msgA msgB
    (by decide) (by decide)

/-- C4: whenever validation fails, the dispatcher returns the validation error
response with isError true and hands no message to the provider. -/
theorem validation_failure_returns_error_and_never_sends (cfg : Configuration)
    (san : String → String) (send : SgMessage → Except ThrownError SgResponse)
    (input : JsValue) (issues : List ZodIssue)
    (h : EmailSchema.parse input = .error issues) :
    (handleSendEmail cfg san send input).1 = textResponse (zodErrorText issues) true ∧
    (handleSendEmail cfg san send input).1.isError = true ∧
    (handleSendEmail cfg san send input).2 = [] := by
  unfold handleSendEmail
  rw [h]
  exact ⟨rfl, rfl, rfl⟩

/-- C4 witness: the spec example with an empty subject fails validation with
the subject-emptiness message and performs no outbound call. -/
theorem validation_failure_returns_error_and_never_sends_witness :
    (handleSendEmail cfgA id sendOkA inputEmptySubject).1 =
      textResponse (zodErrorText [⟨["subject"], "Subject cannot be empty"⟩]) true ∧
    (handleSendEmail cfgA id sendOkA inputEmptySubject).1.isError = true ∧
    (handleSendEmail cfgA id sendOkA inputEmptySubject).2 = [] :=
  validation_failure_returns_error_and_never_sends cfgA id sendOkA inputEmptySubject
    [⟨["subject"], "Subject cannot be empty"⟩] (by decide)

/-- C5: the dispatcher is total and every call returns a well-formed response:
exactly one content item, of type text, whatever the input, the sanitizer and
the provider outcome (error objects with any response shape, plain errors, and
non-Error throws are all mapped to responses). -/
theorem dispatcher_always_returns_wellformed_response (cfg : Configuration)
    (san : String → String) (send : SgMessage → Except ThrownError SgResponse)
    (input : JsValue) :
    ∃ t : String, (handleSendEmail cfg san send input).1.content = [⟨"text", t⟩] := by
  unfold handleSendEmail
  split
  · exact ⟨_, rfl⟩
  · split <;> exact ⟨_, rfl⟩

/-- C2 counterexample: an input carrying a field other than to, subject, text,
html (here a caller-supplied from) is not rejected: validation succeeds and
the unknown field is silently dropped from the parsed request. -/
theorem validator_accepts_unknown_field :
    EmailSchema.parse inputWithUnknownField =
      .ok ⟨"test@example.com", "Hi", some "hello", none⟩ := by
  decide

/-- C2 amended: the validator ignores every field other than to, subject,
text and html: its result only depends on those four lookups, so unknown
fields are silently stripped rather than rejected. -/
theorem validator_ignores_unknown_fields
    (fields₁ fields₂ : List (String × JsValue))
    (hto : lookupField fields₁ "to" = lookupField fields₂ "to")
    (hsub : lookupField fields₁ "subject" = lookupField fields₂ "subject")
    (htext : lookupField fields₁ "text" = lookupField fields₂ "text")
    (hhtml : lookupField fields₁ "html" = lookupField fields₂ "html") :
    EmailSchema.parse (.obj fields₁) = EmailSchema.parse (.obj fields₂) := by
  have h1 : parseTo fields₁ = parseTo fields₂ := by
    unfold parseTo
    rw [hto]
  have h2 : parseSubject fields₁ = parseSubject fields₂ := by
    unfold parseSubject
    rw [hsub]
  have h3 : parseOptionalString fields₁ "text" = parseOptionalString fields₂ "text" := by
    unfold parseOptionalString
    rw [htext]
  have h4 : parseOptionalString fields₁ "html" = parseOptionalString fields₂ "html" := by
    unfold parseOptionalString
    rw [hhtml]
  show parseEmailObject fields₁ = parseEmailObject fields₂
  unfold parseEmailObject
  rw [h1, h2, h3, h4]

/-- C2 witness: adding the unknown from field to a request leaves the
validation result unchanged. -/
theorem validator_ignores_unknown_fields_witness :
    EmailSchema.parse inputWithUnknownField = EmailSchema.parse inputA :=
  validator_ignores_unknown_fields
    [("to", .str "test@example.com"), ("subject", .str "Hi"),
      ("text", .str "hello"), ("from", .str "attacker@evil.example")]
    [("to", .str "test@example.com"), ("subject", .str "Hi"), ("text", .str "hello")]
    rfl rfl rfl rfl

/-- C3 counterexample: for the empty input object the recipient-presence and
subject-presence rules and the content-presence rule are all violated, yet the
failure carries no message for the content rule: a missing required field
aborts the zod object parse, so the refinement never runs. -/
theorem validator_skips_content_rule_cex :
    EmailSchema.parse (.obj []) =
      .error [⟨["to"], "Required"⟩, ⟨["subject"], "Required"⟩] ∧
    ([⟨["to"], "Required"⟩, ⟨["subject"], "Required"⟩] : List ZodIssue).all
      (fun i => !(i.path = ["content"])) = true := by
  constructor
  · decide
  · decide

/-- C3 amended: when to is a malformed string, subject is the empty string and
neither text nor html is supplied, the single failure carries one message per
violated rule, ordered recipient format, subject non-emptiness, content
presence. (When a field is instead missing or of a non-string type, the
object parse aborts and the content-presence message is skipped.) -/
theorem validator_reports_all_violations_in_order
    (fields : List (String × JsValue)) (s : String)
    (hto : lookupField fields "to" = some (.str s))
    (hbad : emailOk s = false)
    (hsub : lookupField fields "subject" = some (.str ""))
    (htext : lookupField fields "text" = none)
    (hhtml : lookupField fields "html" = none) :
    EmailSchema.parse (.obj fields) =
      .error [⟨["to"], "Invalid recipient email address"⟩,
        ⟨["subject"], "Subject cannot be empty"⟩,
        ⟨["content"], "Either text or html content must be provided"⟩] := by
  have e1 : parseTo fields =
      (if emailOk s then (⟨.valid, [], some s⟩ : FieldResult)
       else ⟨.dirty, [⟨["to"], "Invalid recipient email address"⟩], some s⟩) := by
    unfold parseTo
    rw [hto]
  have h1 : parseTo fields = ⟨.dirty, [⟨["to"], "Invalid recipient email address"⟩], some s⟩ := by
    rw [e1]
    simp [hbad]
  have h2 : parseSubject fields = ⟨.dirty, [⟨["subject"], "Subject cannot be empty"⟩], some ""⟩ := by
    unfold parseSubject
    rw [hsub]
    rfl
  have h3 : parseOptionalString fields "text" = ⟨.valid, [], none⟩ := by
    unfold parseOptionalString
    rw [htext]
  have h4 : parseOptionalString fields "html" = ⟨.valid, [], none⟩ := by
    unfold parseOptionalString
    rw [hhtml]
  show parseEmailObject fields = _
  unfold parseEmailObject
  rw [h1, h2, h3, h4]
  rfl

/-- C3 witness: a malformed recipient with an empty subject and no content
yields exactly the three messages in order. -/
theorem validator_reports_all_violations_in_order_witness :
    EmailSchema.parse (.obj [("to", .str "invalid-email"), ("subject", .str "")]) =
      .error [⟨["to"], "Invalid recipient email address"⟩,
        ⟨["subject"], "Subject cannot be empty"⟩,
        ⟨["content"], "Either text or html content must be provided"⟩] :=
  validator_reports_all_violations_in_order
    [("to", .str "invalid-email"), ("subject", .str "")] "invalid-email"
    rfl (by decide) rfl rfl rfl

theorem handleSendEmail_provider_error (cfg : Configuration) (san : String → String)
    (input : JsValue) (d : EmailRequest) (status : Option Nat) (body : Option JsValue)
    (h : EmailSchema.parse input = .ok d) :
    handleSendEmail cfg san (fun _ => .error (.withResponse status body)) input =
      (textResponse (sendGridErrorText status body) true,
       [buildMessage cfg.fromEmail (sanitizeRequest san d)]) := by
  unfold handleSendEmail sendEmail
  rw [h]

theorem handleSendEmail_success (cfg : Configuration) (san : String → String)
    (input : JsValue) (d : EmailRequest) (sc : Nat) (headers : List (String × String))
    (h : EmailSchema.parse input = .ok d) :
    handleSendEmail cfg san (fun _ => .ok ⟨sc, headers⟩) input =
      (textResponse ("Email sent successfully! Status: " ++ toString sc ++
        ", Message ID: " ++ messageIdOf headers) false,
       [buildMessage cfg.fromEmail (sanitizeRequest san d)]) := by
  unfold handleSendEmail sendEmail
  rw [h]

/-- C6 counterexample: a provider failure whose response carries the HTTP
status 0 is reported as status unknown, not as status 0, because the source
uses a truthiness test (status || unknown) rather than a presence test. -/
theorem provider_status_zero_reported_unknown :
    (handleSendEmail cfgA id sendStatusZero inputA).1 =
      textResponse "SendGrid API error (status: unknown)" true ∧
    (handleSendEmail cfgA id sendStatusZero inputA).1 ≠
      textResponse "SendGrid API error (status: 0)" true := by
  constructor
  · decide
  · decide

/-- C6 amended: on a provider failure the response has isError true and its
single text carries the provider status when it is present and nonzero (the
sentinel unknown when it is absent or zero) and, when the error body carries a
well-formed errors list, the first error's message; the extraction is total,
and every body from which no message can be extracted degrades to the generic
status-only message. -/
theorem provider_error_response (cfg : Configuration) (san : String → String)
    (input : JsValue) (d : EmailRequest) (status : Option Nat) (body : Option JsValue)
    (h : EmailSchema.parse input = .ok d) :
    (handleSendEmail cfg san (fun _ => .error (.withResponse status body)) input).1.isError
        = true ∧
    (handleSendEmail cfg san (fun _ => .error (.withResponse status body)) input).1.content
        = [⟨"text", sendGridErrorText status body⟩] ∧
    (∀ n : Nat, status = some n → n ≠ 0 → statusText status = toString n) ∧
    ((status = none ∨ status = some 0) → statusText status = "unknown") ∧
    (∀ m, extractFirstErrorMessage body = some m →
      sendGridErrorText status body =
        ("SendGrid API error (status: " ++ statusText status ++ ")") ++ (": " ++ m)) ∧
    (extractFirstErrorMessage body = none →
      sendGridErrorText status body =
        "SendGrid API error (status: " ++ statusText status ++ ")") := by
  refine ⟨?_, ?_, ?_, ?_, ?_, ?_⟩
  · rw [handleSendEmail_provider_error cfg san input d status body h]
    rfl
  · rw [handleSendEmail_provider_error cfg san input d status body h]
    rfl
  · intro n hn h0
    subst hn
    unfold statusText
    simp [h0]
  · intro hcase
    rcases hcase with h0 | h0 <;> subst h0 <;> rfl
  · intro m hm
    unfold sendGridErrorText
    rw [hm]
  · intro hm
    unfold sendGridErrorText
    rw [hm]
    simp

/-- C6 witness: the spec example, a provider failure with status 400 and body
errors [message Invalid recipient], yields an error-flagged response. -/
theorem provider_error_response_witness :
    (handleSendEmail cfgA id
      (fun _ => .error (.withResponse (some 400) (some bodyInvalidRecipient))) inputA).1.isError
        = true :=
  (provider_error_response cfgA id inputA ⟨"test@example.com", "Hi", some "hello", none⟩
    (some 400) (some bodyInvalidRecipient) (by rfl)).1

/-- C9 counterexample: a success response whose x-message-id header is present
but empty is reported with Message ID unknown rather than with the (empty)
header value, because the source uses a truthiness test (header || unknown). -/
theorem success_empty_message_id_reported_unknown :
    (handleSendEmail cfgA id sendEmptyMessageId inputA).1 =
      textResponse "Email sent successfully! Status: 202, Message ID: unknown" false ∧
    (handleSendEmail cfgA id sendEmptyMessageId inputA).1 ≠
      textResponse "Email sent successfully! Status: 202, Message ID: " false := by
  constructor
  · decide
  · decide

/-- C9 amended: on a successful send the response text is exactly
Email sent successfully! Status: sc, Message ID: mid, where sc is the provider
status and mid is the x-message-id header when it is present and nonempty, and
the literal unknown when the header is absent or empty. -/
theorem success_response_format (cfg : Configuration) (san : String → String)
    (input : JsValue) (d : EmailRequest) (sc : Nat) (headers : List (String × String))
    (h : EmailSchema.parse input = .ok d) :
    (handleSendEmail cfg san (fun _ => .ok ⟨sc, headers⟩) input).1 =
      textResponse ("Email sent successfully! Status: " ++ toString sc ++
        ", Message ID: " ++ messageIdOf headers) false ∧
    (∀ v, lookupHeader headers "x-message-id" = some v → v ≠ "" →
      messageIdOf headers = v) ∧
    (lookupHeader headers "x-message-id" = none → messageIdOf headers = "unknown") ∧
    (lookupHeader headers "x-message-id" = some "" → messageIdOf headers = "unknown") := by
  refine ⟨?_, ?_, ?_, ?_⟩
  · rw [handleSendEmail_success cfg san input d sc headers h]
  · intro v hv hne
    unfold messageIdOf
    rw [hv]
    simp [hne]
  · intro hv
    unfold messageIdOf
    rw [hv]
  · intro hv
    unfold messageIdOf
    rw [hv]
    rfl

/-- C9 witness: the spec example, provider status 202 and header
x-message-id test-message-id-123, yields exactly the spec's response text. -/
theorem success_response_format_witness :
    (handleSendEmail cfgA id
      (fun _ => .ok ⟨202, [("x-message-id", "test-message-id-123")]⟩) inputA).1 =
      textResponse "Email sent successfully! Status: 202, Message ID: test-message-id-123"
        false := by
  rw [(success_response_format cfgA id inputA ⟨"test@example.com", "Hi", some "hello", none⟩
    202 [("x-message-id", "test-message-id-123")] (by rfl)).1]
  rfl

/-- C7: sanitized output is clean (no script/iframe/object/embed element and
no event-handler or javascript:-URL attribute anywhere), safe formatting
markup (p, strong, em over plain text) is preserved unchanged, and an element
with a dangerous tag is removed entirely while any other element is kept with
only its dangerous attributes stripped. -/
theorem sanitizer_output_clean_and_preserves_safe (l : List Html) :
    fragClean (sanitize l) = true ∧
    (fragSafeFormatting l = true → sanitize l = l) ∧
    (∀ tag attrs children, dangerousTag tag = true →
      sanitizeNode (Html.elem tag attrs children) = []) ∧
    (∀ tag attrs children, dangerousTag tag = false →
      sanitizeNode (Html.elem tag attrs children) =
        [Html.elem tag (attrs.filter (fun a => !dangerousAttr a.1 a.2))
          (sanitize children)]) := by
  refine ⟨sanitize_clean l, ?_, ?_, ?_⟩
  · intro hs
    exact sanitize_of_clean l (fragSafeFormatting_clean l hs)
  · intro tag attrs children hd
    unfold sanitizeNode
    simp [hd]
  · intro tag attrs children hd
    unfold sanitizeNode
    simp [hd]

/-- C7 witness: the spec's safe formatting example passes through unchanged,
and a fragment with a script element and an onclick handler sanitizes to a
clean fragment. -/
theorem sanitizer_output_clean_and_preserves_safe_witness :
    sanitize safeHtmlFragment = safeHtmlFragment ∧
    fragClean (sanitize [Html.elem "script" [] [Html.text "alert(1)"],
      Html.elem "button" [("onclick", "alert()")] [Html.text "Click"]]) = true :=
  ⟨(sanitizer_output_clean_and_preserves_safe safeHtmlFragment).2.1 (by rfl),
   (sanitizer_output_clean_and_preserves_safe
      [Html.elem "script" [] [Html.text "alert(1)"],
       Html.elem "button" [("onclick", "alert()")] [Html.text "Click"]]).1⟩

/-- C8: the sanitizer is a pure function of its input and is idempotent:
sanitizing an already sanitized fragment changes nothing. -/
theorem sanitize_idempotent (l : List Html) : sanitize (sanitize l) = sanitize l :=
  sanitize_of_clean (sanitize l) (sanitize_clean l)

/-- C10: a tool call whose name is not send_email is answered by throwing an
Unknown tool error to the transport layer (the Except.error case), not by a
tool response with isError set; a send_email call always yields a returned
response, whatever the arguments. -/
theorem unknown_tool_throws (cfg : Configuration) (san : String → String)
    (send : SgMessage → Except ThrownError SgResponse)
    (toolName : String) (arguments : JsValue)
    (h : toolName ≠ "send_email") :
    callToolHandler cfg san send toolName arguments =
      .error ("Unknown tool: " ++ toolName) ∧
    callToolHandler cfg san send "send_email" arguments =
      .ok (handleSendEmail cfg san send arguments) := by
  constructor
  · unfold callToolHandler
    simp [h]
  · rfl

/-- C10 witness: a call to the unregistered tool name list_emails throws. -/
theorem unknown_tool_throws_witness :
    callToolHandler cfgA id sendOkA "list_emails" (.obj []) =
      .error "Unknown tool: list_emails" :=
  (unknown_tool_throws cfgA id sendOkA "list_emails" (.obj []) (by decide)).1
